import Mathlib

/-!
Verification of the movie-quiz-game repository.

The repository ships the React client (QuizPage and friends); the Flask
backend that implements the quiz session engine is referenced but not
included, so the engine is modelled from the specification (spec.md, §3/§4.1)
and the client is embedded from the QuizPage component source.
-/

namespace MovieQuiz

/-! ## Server-side quiz session engine (modelled from the spec) -/

/-- Modelled from the spec: the session `status` field, "{ACTIVE, COMPLETE}.
Terminal once COMPLETE; no further answers accepted." The backend code is not
in the repository. -/
inductive SessionStatus where
  | ACTIVE
  | COMPLETE
deriving DecidableEq, Repr

/-- Modelled from the spec: a Question entity — "id, prompt text, ordered list
of answer options, correct_index, difficulty tag". -/
structure Question where
  id : String
  prompt : String
  options : List String
  correct_index : Nat
  difficulty : String
deriving DecidableEq, Repr

/-- Modelled from the spec: the sanitized question view returned to the
client — "id, prompt, options, difficulty tag, position number, total count",
with `correct_index` stripped. -/
structure SanitizedQuestion where
  id : String
  prompt : String
  options : List String
  difficulty : String
  number : Nat
  total : Nat
deriving DecidableEq, Repr

/-- Modelled from the spec: sanitization strips `correct_index` and attaches
the 1-based position number and the total count. -/
def sanitize (q : Question) (number total : Nat) : SanitizedQuestion :=
  { id := q.id, prompt := q.prompt, options := q.options,
    difficulty := q.difficulty, number := number, total := total }

/-- Modelled from the spec: the QuizSession record of §3 — ordered question
sequence fixed at start, `current_index`, `score`, `difficulty_level`,
streak counters driving difficulty adaptation, and `status`. -/
structure QuizSession where
  session_id : String
  user_id : Option String
  questions : List Question
  current_index : Nat
  score : Nat
  difficulty_level : Nat
  correct_streak : Nat
  incorrect_streak : Nat
  status : SessionStatus
deriving DecidableEq, Repr

/-- Modelled from the spec: the error taxonomy of §7 that the engine itself
raises (`UpstreamUnavailable` concerns collaborators, not these transitions). -/
inductive QuizError where
  | InvalidConfig
  | SessionNotFound
  | QuestionMismatch
deriving DecidableEq, Repr

/-- Modelled from the spec: the `submitAnswer` response payload of §4.1. -/
structure AnswerResponse where
  correct : Bool
  correct_index : Nat
  score : Nat
  quiz_complete : Bool
  next_question : Option SanitizedQuestion
  difficulty_level : Nat
  questions_remaining : Nat
deriving DecidableEq, Repr

/-- Modelled from the spec: the `start` response payload of §4.1. -/
structure StartResponse where
  session_id : String
  question : SanitizedQuestion
  score : Nat
  questions_remaining : Nat
deriving DecidableEq, Repr

/-- Modelled from the spec: the `submitAnswer` request body of §6. -/
structure SubmitInput where
  question_id : String
  answer_index : Int
  time_left : Nat
deriving DecidableEq, Repr

/-- Modelled from the spec: "Timeout sentinel (convention: -1)". -/
def TIMEOUT_SENTINEL : Int := -1

/-- Modelled from the spec: lower bound of the difficulty range "[1,5]". -/
def DIFF_MIN : Nat := 1

/-- Modelled from the spec: upper bound of the difficulty range "[1,5]". -/
def DIFF_MAX : Nat := 5

/-- Modelled from the spec: the "configurable run of consecutive correct
answers" after which difficulty increments. -/
def STREAK_UP : Nat := 2

/-- Modelled from the spec: the "configurable run of consecutive
incorrect/timeout answers" after which difficulty decrements. -/
def STREAK_DOWN : Nat := 2

/-- Modelled from the spec: the base points factor of the example formula
`base_points * difficulty_level + time_left_bonus`. -/
def BASE_POINTS : Nat := 10

/-- Modelled from the spec: the points awarded for a correct answer, using the
spec's example formula `base_points * difficulty_level + time_left_bonus`,
monotonic in both remaining time and difficulty. -/
def points (difficulty time_left : Nat) : Nat :=
  BASE_POINTS * difficulty + time_left

/-- Modelled from the spec: clamp the difficulty level to the configured
range [DIFF_MIN, DIFF_MAX]. -/
def clampDifficulty (d : Nat) : Nat :=
  min DIFF_MAX (max DIFF_MIN d)

/-- Modelled from the spec: difficulty adaptation — "increment after a
configurable run of consecutive correct answers; decrement after a
configurable run of consecutive incorrect/timeout answers; no change
otherwise", the level clamped to [1,5]. Returns the new
(difficulty level, correct streak, incorrect streak). -/
def adaptDifficulty (level cs ics : Nat) (correct : Bool) : Nat × Nat × Nat :=
  if correct then
    if STREAK_UP ≤ cs + 1 then (clampDifficulty (level + 1), 0, 0)
    else (level, cs + 1, 0)
  else
    if STREAK_DOWN ≤ ics + 1 then (clampDifficulty (level - 1), 0, 0)
    else (level, 0, ics + 1)

/-- Modelled from the spec: "Grading: correct iff
`answer_index == question.correct_index`". -/
def gradeCorrect (q : Question) (inp : SubmitInput) : Bool :=
  inp.answer_index == (q.correct_index : Int)

/-- Modelled from the spec: "On correct: increment score ... On
incorrect/timeout: score unchanged". -/
def scoreAfter (s : QuizSession) (q : Question) (inp : SubmitInput) : Nat :=
  if gradeCorrect q inp then s.score + points s.difficulty_level inp.time_left
  else s.score

/-- Modelled from the spec: the sequence is exhausted after this answer
advances `current_index`. -/
def quizCompleteAfter (s : QuizSession) : Bool :=
  decide (s.questions.length ≤ s.current_index + 1)

/-- Modelled from the spec: the session after a successful `submitAnswer` —
score updated, difficulty adapted, `current_index` advanced, status COMPLETE
exactly when the sequence is exhausted. -/
def advanceSession (s : QuizSession) (q : Question) (inp : SubmitInput) : QuizSession :=
  { s with
    current_index := s.current_index + 1
    score := scoreAfter s q inp
    difficulty_level :=
      (adaptDifficulty s.difficulty_level s.correct_streak s.incorrect_streak (gradeCorrect q inp)).1
    correct_streak :=
      (adaptDifficulty s.difficulty_level s.correct_streak s.incorrect_streak (gradeCorrect q inp)).2.1
    incorrect_streak :=
      (adaptDifficulty s.difficulty_level s.correct_streak s.incorrect_streak (gradeCorrect q inp)).2.2
    status := if quizCompleteAfter s then SessionStatus.COMPLETE else SessionStatus.ACTIVE }

/-- Modelled from the spec: the response to a successful `submitAnswer` —
grading outcome, revealed `correct_index`, updated score, completion flag,
the next sanitized question when one remains, the adapted difficulty and the
remaining-question count. -/
def answerResponseOf (s : QuizSession) (q : Question) (inp : SubmitInput) : AnswerResponse :=
  { correct := gradeCorrect q inp
    correct_index := q.correct_index
    score := scoreAfter s q inp
    quiz_complete := quizCompleteAfter s
    next_question :=
      if quizCompleteAfter s then none
      else (s.questions[s.current_index + 1]?).map
        (fun q2 => sanitize q2 (s.current_index + 2) s.questions.length)
    difficulty_level :=
      (adaptDifficulty s.difficulty_level s.correct_streak s.incorrect_streak (gradeCorrect q inp)).1
    questions_remaining := s.questions.length - (s.current_index + 1) }

/-- Modelled from the spec: `submitAnswer` of §4.1. Fails with
`SessionNotFound` on a COMPLETE session, `QuestionMismatch` when
`question_id` is not the current question; otherwise grades the answer,
updates the score and difficulty, advances `current_index` and marks the
session COMPLETE when the sequence is exhausted. Errors leave the session
unchanged. -/
def submitAnswer (s : QuizSession) (inp : SubmitInput) :
    Except QuizError AnswerResponse × QuizSession :=
  if s.status = SessionStatus.COMPLETE then (Except.error QuizError.SessionNotFound, s)
  else
    match s.questions[s.current_index]? with
    | none => (Except.error QuizError.QuestionMismatch, s)
    | some q =>
      if inp.question_id ≠ q.id then (Except.error QuizError.QuestionMismatch, s)
      else (Except.ok (answerResponseOf s q inp), advanceSession s q inp)

/-- Modelled from the spec: `start` of §4.1 — given the questions selected
from the Question Source, creates a session with `status=ACTIVE`,
`current_index=0`, `score=0`, starting difficulty 1, and returns the first
question sanitized; fails with `InvalidConfig` when no questions were
requested. -/
def startSession (sid : String) (uid : Option String) (qs : List Question) :
    Except QuizError (StartResponse × QuizSession) :=
  match qs with
  | [] => Except.error QuizError.InvalidConfig
  | q :: rest =>
    Except.ok
      ({ session_id := sid
         question := sanitize q 1 (q :: rest).length
         score := 0
         questions_remaining := (q :: rest).length },
       { session_id := sid
         user_id := uid
         questions := q :: rest
         current_index := 0
         score := 0
         difficulty_level := 1
         correct_streak := 0
         incorrect_streak := 0
         status := SessionStatus.ACTIVE })

/-- Runs a sequence of `submitAnswer` calls on a session, keeping only the
evolving session state (failed calls leave the state unchanged, as
`submitAnswer` returns the original session on error). -/
def runSubmits (s : QuizSession) : List SubmitInput → QuizSession
  | [] => s
  | inp :: rest => runSubmits (submitAnswer s inp).2 rest

/-- Runs a sequence of `submitAnswer` calls, returning the final session only
when every call succeeded. -/
def runSubmitsOk (s : QuizSession) : List SubmitInput → Option QuizSession
  | [] => some s
  | inp :: rest =>
    match submitAnswer s inp with
    | (Except.ok _, s2) => runSubmitsOk s2 rest
    | (Except.error _, _) => none

/-! ## Client (embedded from the QuizPage React component) -/

namespace Client

/-- The `QuestionPayload` interface of QuizPage. -/
structure QuestionPayload where
  id : String
  question : String
  options : List String
  difficulty : Option String
  number : Nat
  total : Nat
deriving DecidableEq, Repr

/-- The `StartResponse` interface of QuizPage. -/
structure CStartResponse where
  session_id : String
  question : QuestionPayload
  score : Nat
  questions_remaining : Nat
deriving DecidableEq, Repr

/-- The `AnswerResponse` interface of QuizPage; optional fields are `Option`. -/
structure CAnswerResponse where
  correct : Bool
  correct_index : Int
  score : Nat
  quiz_complete : Bool
  next_question : Option QuestionPayload
  difficulty_level : Option Nat
  questions_remaining : Option Nat
deriving DecidableEq, Repr

/-- The `UserData` interface of QuizPage. -/
structure UserData where
  user_id : String
  email : String
  preferred_genre : String
deriving DecidableEq, Repr

/-- An HTTP request issued by the client: POST /api/quiz/start,
POST /api/quiz/answer, or POST /api/quiz/complete, with its body fields. -/
inductive Request where
  | startReq (total_questions : Nat) (user_id : Option String)
  | answerReq (session_id question_id : String) (answer_index : Int) (time_left : Nat)
  | completeReq (session_id : String) (final_score correct_answers total_questions : Nat)
deriving DecidableEq, Repr

/-- The QuizPage component state: the `useState` hooks plus the two
window-held mutable globals `__nextQuestion` and `__lastCorrectIndex`. -/
structure ClientState where
  sessionId : Option String
  question : Option QuestionPayload
  selectedAnswer : Option Int
  score : Nat
  timeLeft : Nat
  isAnswered : Bool
  quizComplete : Bool
  difficultyLevel : Nat
  isTimeout : Bool
  nextQuestionGlobal : Option QuestionPayload
  lastCorrectIndexGlobal : Option Int
deriving DecidableEq, Repr

/-- The initial `useState` values of QuizPage: no session, no question,
score 0, 30-second timer, difficulty 1, nothing answered, globals unset. -/
def initClientState : ClientState :=
  { sessionId := none, question := none, selectedAnswer := none, score := 0,
    timeLeft := 30, isAnswered := false, quizComplete := false,
    difficultyLevel := 1, isTimeout := false, nextQuestionGlobal := none,
    lastCorrectIndexGlobal := none }

/-- JavaScript truthiness of a nullable string (`!sessionId` is true for
both `null` and the empty string). -/
def sidTruthy : Option String → Bool
  | none => false
  | some s => !(s == "")

/-- The `start` effect run on mount: POSTs /api/quiz/start with
`total_questions: 10` and, when `userData?.user_id` is truthy, `user_id`;
installs the response's question and score and resets the timer, answered
flag, timeout flag and selection. -/
def startQuiz (st : ClientState) (userData : Option UserData)
    (resp : CStartResponse) : ClientState × List Request :=
  let uid : Option String :=
    match userData with
    | some u => if u.user_id == "" then none else some u.user_id
    | none => none
  ({ st with
      sessionId := some resp.session_id
      question := some resp.question
      score := resp.score
      timeLeft := 30
      isAnswered := false
      isTimeout := false
      selectedAnswer := none },
   [Request.startReq 10 uid])

/-- `completeQuiz`: when a session id is truthy, POSTs /api/quiz/complete
with the given final score and the hardcoded `correctAnswers = 1` and
`totalQuestions = 10`. -/
def completeQuiz (st : ClientState) (finalScore : Nat) : List Request :=
  match st.sessionId with
  | none => []
  | some sid => if sid == "" then [] else [Request.completeReq sid finalScore 1 10]

/-- The response-handling code shared verbatim by `handleAnswerSelect` and
`handleTimeout`: set the score; set the difficulty level only when the
response's `difficulty_level` is truthy; on `quiz_complete` set the complete
flag and call `completeQuiz` with the response's score; otherwise stash
`next_question` in the window global; always stash `correct_index` in the
window global. -/
def applyAnswerResponse (st : ClientState) (resp : CAnswerResponse) :
    ClientState × List Request :=
  let st1 := { st with score := resp.score }
  let st2 :=
    match resp.difficulty_level with
    | some d => if d == 0 then st1 else { st1 with difficultyLevel := d }
    | none => st1
  if resp.quiz_complete then
    let st3 := { st2 with quizComplete := true, lastCorrectIndexGlobal := some resp.correct_index }
    (st3, completeQuiz st3 resp.score)
  else
    let st3 :=
      match resp.next_question with
      | some nq => { st2 with nextQuestionGlobal := some nq }
      | none => st2
    ({ st3 with lastCorrectIndexGlobal := some resp.correct_index }, [])

/-- `handleAnswerSelect`: returns immediately when already answered, no
question, or falsy session id; otherwise records the selection, sets the
answered flag, POSTs /api/quiz/answer with the current question id, the
chosen index and the remaining time, and handles the server response. -/
def handleAnswerSelect (st : ClientState) (answerIndex : Int)
    (resp : CAnswerResponse) : ClientState × List Request :=
  match st.question, st.sessionId with
  | some q, some sid =>
    if st.isAnswered || sid == "" then (st, [])
    else
      let st1 := { st with selectedAnswer := some answerIndex, isAnswered := true }
      let out := applyAnswerResponse st1 resp
      (out.1, Request.answerReq sid q.id answerIndex st.timeLeft :: out.2)
  | _, _ => (st, [])

/-- `handleTimeout`: same guard as `handleAnswerSelect`; clears the
selection, sets the answered and timeout flags, POSTs /api/quiz/answer with
`answer_index: -1` and `time_left: 0`, and handles the server response. -/
def handleTimeout (st : ClientState) (resp : CAnswerResponse) :
    ClientState × List Request :=
  match st.question, st.sessionId with
  | some q, some sid =>
    if st.isAnswered || sid == "" then (st, [])
    else
      let st1 := { st with isAnswered := true, selectedAnswer := none, isTimeout := true }
      let out := applyAnswerResponse st1 resp
      (out.1, Request.answerReq sid q.id (-1) 0 :: out.2)
  | _, _ => (st, [])

/-- `nextQuestion`: reads the window global; when present, installs it as the
current question, clears the selection and the answered/timeout flags, and
resets the timer to 30. The global itself is not cleared. -/
def nextQuestion (st : ClientState) : ClientState :=
  match st.nextQuestionGlobal with
  | none => st
  | some nq =>
    { st with
      question := some nq
      selectedAnswer := none
      isAnswered := false
      isTimeout := false
      timeLeft := 30 }

/-- The countdown `useEffect`: while time remains and nothing is answered and
the quiz is not complete, decrement the timer after one second; when the
timer has reached 0 with no answer and a question on screen, run
`handleTimeout` (`resp` is the server's reply to the timeout submission). -/
def timerEffect (st : ClientState) (resp : CAnswerResponse) :
    ClientState × List Request :=
  if 0 < st.timeLeft && !st.isAnswered && !st.quizComplete then
    ({ st with timeLeft := st.timeLeft - 1 }, [])
  else if st.timeLeft == 0 && !st.isAnswered && st.question.isSome then
    handleTimeout st resp
  else (st, [])

/-- An event hitting the quiz page while a question is on screen: the user
clicks an option, or the one-second timer fires. Each carries the server
response its submission (if any) receives. -/
inductive ClientEvent where
  | select (answerIndex : Int) (resp : CAnswerResponse)
  | timer (resp : CAnswerResponse)
deriving DecidableEq, Repr

/-- Dispatch one event to its handler. -/
def stepEvent (st : ClientState) : ClientEvent → ClientState × List Request
  | ClientEvent.select i r => handleAnswerSelect st i r
  | ClientEvent.timer r => timerEffect st r

/-- Run a sequence of events, collecting every request issued. -/
def runEvents (st : ClientState) : List ClientEvent → ClientState × List Request
  | [] => (st, [])
  | e :: rest =>
    let out := stepEvent st e
    let outRest := runEvents out.1 rest
    (outRest.1, out.2 ++ outRest.2)

/-- Is this request a POST to /api/quiz/answer? -/
def isAnswerReq : Request → Bool
  | Request.answerReq _ _ _ _ => true
  | _ => false

/-- How many answer submissions a request list contains. -/
def countAnswerReqs (l : List Request) : Nat :=
  (l.filter isAnswerReq).length

/-- Does a complete-request carry the hardcoded aggregates
`correct_answers = 1` and `total_questions = 10`? (Vacuously true of the
other request kinds.) -/
def completeReqConstants : Request → Bool
  | Request.completeReq _ _ ca tq => ca == 1 && tq == 10
  | _ => true

/-- Is this request a POST to /api/quiz/complete? -/
def isCompleteReq : Request → Bool
  | Request.completeReq _ _ _ _ => true
  | _ => false

end Client

/-! ## Concrete fixtures used by witnesses and counterexamples -/

/-- A two-option question whose second option is correct. -/
def qA : Question :=
  { id := "qA", prompt := "A?", options := ["x", "y"], correct_index := 1, difficulty := "easy" }

/-- A two-option question whose first option is correct. -/
def qB : Question :=
  { id := "qB", prompt := "B?", options := ["x", "y"], correct_index := 0, difficulty := "easy" }

/-- A fresh two-question session as `startSession` creates it. -/
def sessAB : QuizSession :=
  { session_id := "s", user_id := none, questions := [qA, qB], current_index := 0,
    score := 0, difficulty_level := 1, correct_streak := 0, incorrect_streak := 0,
    status := SessionStatus.ACTIVE }

/-- A correct submission for `qA` with 20 seconds left. -/
def inpA : SubmitInput := { question_id := "qA", answer_index := 1, time_left := 20 }

/-- A timeout submission for `qB`. -/
def inpB : SubmitInput := { question_id := "qB", answer_index := -1, time_left := 0 }

/-- A client-side question payload for `qA`. -/
def qpA : Client.QuestionPayload :=
  { id := "qA", question := "A?", options := ["x", "y"], difficulty := some "easy",
    number := 1, total := 2 }

/-- A client-side question payload for `qB`. -/
def qpB : Client.QuestionPayload :=
  { id := "qB", question := "B?", options := ["x", "y"], difficulty := some "easy",
    number := 2, total := 2 }

/-- The start response `startSession "s" none [qA, qB]` produces. -/
def startRespAB : StartResponse :=
  { session_id := "s", question := sanitize qA 1 2, score := 0, questions_remaining := 2 }

/-- `sessAB` after answering `qA` correctly and timing out on `qB`. -/
def sessDone : QuizSession :=
  { sessAB with
    current_index := 2
    score := 30
    incorrect_streak := 1
    status := SessionStatus.COMPLETE }

/-- A client state showing `qpA` in session "s", nothing answered yet. -/
def stClient : Client.ClientState :=
  { Client.initClientState with sessionId := some "s", question := some qpA }

/-- A mid-quiz answer response: next question attached, difficulty raised. -/
def respNextC : Client.CAnswerResponse :=
  { correct := true, correct_index := 1, score := 30, quiz_complete := false,
    next_question := some qpB, difficulty_level := some 2, questions_remaining := some 1 }

/-- A final answer response: quiz complete, no next question, difficulty absent. -/
def respDoneC : Client.CAnswerResponse :=
  { correct := false, correct_index := 0, score := 30, quiz_complete := true,
    next_question := none, difficulty_level := none, questions_remaining := some 0 }

/-- A start response delivering `qpA` for session "s". -/
def respStartC : Client.CStartResponse :=
  { session_id := "s", question := qpA, score := 0, questions_remaining := 2 }

/-- A user record with a non-empty id. -/
def userC : Client.UserData :=
  { user_id := "u1", email := "u@example.com", preferred_genre := "action" }

/-! ## Engine lemmas -/

/-- `submitAnswer` either fails and returns the session unchanged, or
succeeds on the current question with the response and session given by
`answerResponseOf` and `advanceSession`. -/
theorem submitAnswer_cases (s : QuizSession) (inp : SubmitInput) :
    (∃ e, submitAnswer s inp = (Except.error e, s)) ∨
    (∃ q, s.questions[s.current_index]? = some q ∧ inp.question_id = q.id ∧
      s.status ≠ SessionStatus.COMPLETE ∧
      submitAnswer s inp = (Except.ok (answerResponseOf s q inp), advanceSession s q inp)) := by
  unfold submitAnswer
  split
  · exact Or.inl ⟨_, rfl⟩
  next hst =>
    split
    · exact Or.inl ⟨_, rfl⟩
    next q hq =>
      split
      · exact Or.inl ⟨_, rfl⟩
      next hid =>
        exact Or.inr ⟨q, hq, not_ne_iff.mp hid, hst, rfl⟩

/-- A successful `submitAnswer` result is exactly the
`answerResponseOf`/`advanceSession` pair for the current question. -/
theorem submitAnswer_ok_elim (s : QuizSession) (inp : SubmitInput)
    (r : AnswerResponse) (s2 : QuizSession)
    (h : submitAnswer s inp = (Except.ok r, s2)) :
    ∃ q, s.questions[s.current_index]? = some q ∧ inp.question_id = q.id ∧
      s.status ≠ SessionStatus.COMPLETE ∧
      r = answerResponseOf s q inp ∧ s2 = advanceSession s q inp := by
  rcases submitAnswer_cases s inp with ⟨e, he⟩ | ⟨q, hq, hid, hst, hok⟩
  · rw [he] at h
    exact absurd (congrArg Prod.fst h) (by simp)
  · rw [hok] at h
    obtain ⟨h1, h2⟩ := Prod.mk.injEq .. ▸ h
    exact ⟨q, hq, hid, hst, (Except.ok.injEq .. ▸ h1).symm, h2.symm⟩

/-- The score never goes down across one `submitAnswer` call. -/
theorem submitAnswer_score_le (s : QuizSession) (inp : SubmitInput) :
    s.score ≤ (submitAnswer s inp).2.score := by
  rcases submitAnswer_cases s inp with ⟨e, he⟩ | ⟨q, _, _, _, hok⟩
  · rw [he]
  · rw [hok]
    show s.score ≤ scoreAfter s q inp
    unfold scoreAfter
    split
    · exact Nat.le_add_right _ _
    · exact Nat.le_refl _

/-- The score never goes down across a sequence of `submitAnswer` calls. -/
theorem runSubmits_score_le (l : List SubmitInput) :
    ∀ s : QuizSession, s.score ≤ (runSubmits s l).score := by
  induction l with
  | nil => intro s; exact Nat.le_refl _
  | cons inp rest ih =>
    intro s
    exact Nat.le_trans (submitAnswer_score_le s inp) (ih (submitAnswer s inp).2)

/-- `submitAnswer` on a COMPLETE session fails with `SessionNotFound` and
leaves the session unchanged. -/
theorem submitAnswer_complete (s : QuizSession) (inp : SubmitInput)
    (h : s.status = SessionStatus.COMPLETE) :
    submitAnswer s inp = (Except.error QuizError.SessionNotFound, s) := by
  unfold submitAnswer
  simp [h]

/-- When a run of `submitAnswer` calls all succeed and their number matches
the questions left, the final session is COMPLETE. -/
theorem runSubmitsOk_complete (inputs : List SubmitInput) :
    ∀ s s2 : QuizSession, inputs ≠ [] →
      s.current_index + inputs.length = s.questions.length →
      runSubmitsOk s inputs = some s2 →
      s2.status = SessionStatus.COMPLETE := by
  induction inputs with
  | nil => intro s s2 h; exact absurd rfl h
  | cons inp rest ih =>
    intro s s2 _ hlen hrun
    unfold runSubmitsOk at hrun
    rcases hpair : submitAnswer s inp with ⟨res, s1⟩
    rw [hpair] at hrun
    cases res with
    | error e => exact absurd hrun (by simp)
    | ok r =>
      simp only at hrun
      obtain ⟨q, hq, -, -, -, hs1⟩ := submitAnswer_ok_elim s inp r s1 hpair
      have hidx : s1.current_index = s.current_index + 1 := by rw [hs1]; rfl
      have hqs : s1.questions = s.questions := by rw [hs1]; rfl
      cases rest with
      | nil =>
        unfold runSubmitsOk at hrun
        obtain rfl : s1 = s2 := Option.some.injEq .. ▸ hrun
        have hcomp : quizCompleteAfter s = true := by
          unfold quizCompleteAfter
          simp only [List.length_cons, List.length_nil] at hlen
          simp only [decide_eq_true_iff]
          omega
        rw [hs1]
        show (if quizCompleteAfter s then SessionStatus.COMPLETE else SessionStatus.ACTIVE) = _
        rw [hcomp]
        rfl
      | cons inp2 rest2 =>
        refine ih s1 s2 (by simp) ?_ hrun
        rw [hidx, hqs]
        simp only [List.length_cons] at hlen ⊢
        omega

/-! ## Client lemmas -/

namespace Client

/-- `completeQuiz` reads only the session id. -/
theorem completeQuiz_congr (st st2 : ClientState) (fs : Nat)
    (h : st.sessionId = st2.sessionId) :
    completeQuiz st fs = completeQuiz st2 fs := by
  unfold completeQuiz
  rw [h]

/-- `completeQuiz` with a truthy session id issues exactly the complete
request with the hardcoded aggregates. -/
theorem completeQuiz_eq (st : ClientState) (fs : Nat) (sid : String)
    (hs : st.sessionId = some sid) (hsid : sid ≠ "") :
    completeQuiz st fs = [Request.completeReq sid fs 1 10] := by
  unfold completeQuiz
  rw [hs]
  simp [hsid]

/-- `completeQuiz` never issues an answer request. -/
theorem completeQuiz_no_answerReq (st : ClientState) (fs : Nat) :
    countAnswerReqs (completeQuiz st fs) = 0 := by
  unfold completeQuiz
  split
  · rfl
  · split
    · rfl
    · rfl

/-- The response-handling tail keeps the session id, the answered flag, the
question and the timer, and always stashes the revealed `correct_index` in
the window global. -/
theorem applyAnswerResponse_fields (st : ClientState) (resp : CAnswerResponse) :
    (applyAnswerResponse st resp).1.sessionId = st.sessionId ∧
    (applyAnswerResponse st resp).1.isAnswered = st.isAnswered ∧
    (applyAnswerResponse st resp).1.question = st.question ∧
    (applyAnswerResponse st resp).1.selectedAnswer = st.selectedAnswer ∧
    (applyAnswerResponse st resp).1.lastCorrectIndexGlobal = some resp.correct_index := by
  rcases resp with ⟨c, ci, sc, qc, nq, dl, qr⟩
  rcases qc <;> rcases dl with _ | d <;> rcases nq with _ | n <;>
    simp [applyAnswerResponse] <;> split <;> simp

/-- The requests of the response-handling tail: the complete request exactly
when the response says the quiz is complete, nothing otherwise. -/
theorem applyAnswerResponse_reqs (st : ClientState) (resp : CAnswerResponse) :
    (applyAnswerResponse st resp).2 =
      if resp.quiz_complete then completeQuiz st resp.score else [] := by
  rcases resp with ⟨c, ci, sc, qc, nq, dl, qr⟩
  rcases qc <;> rcases dl with _ | d <;> rcases nq with _ | n <;>
    simp [applyAnswerResponse] <;>
    first
      | (split <;> apply completeQuiz_congr <;> rfl)
      | (apply completeQuiz_congr; rfl)

/-- The displayed difficulty after the response-handling tail: unchanged on a
falsy `difficulty_level`, replaced on a truthy one. -/
theorem applyAnswerResponse_difficulty (st : ClientState) (resp : CAnswerResponse) :
    ((resp.difficulty_level = none →
        (applyAnswerResponse st resp).1.difficultyLevel = st.difficultyLevel) ∧
     (resp.difficulty_level = some 0 →
        (applyAnswerResponse st resp).1.difficultyLevel = st.difficultyLevel) ∧
     (∀ d : Nat, d ≠ 0 → resp.difficulty_level = some d →
        (applyAnswerResponse st resp).1.difficultyLevel = d)) := by
  refine ⟨?_, ?_, ?_⟩
  · intro h
    rcases resp with ⟨c, ci, sc, qc, nq, dl, qr⟩
    simp only at h
    subst h
    rcases qc <;> rcases nq with _ | n <;> simp [applyAnswerResponse]
  · intro h
    rcases resp with ⟨c, ci, sc, qc, nq, dl, qr⟩
    simp only at h
    subst h
    rcases qc <;> rcases nq with _ | n <;> simp [applyAnswerResponse]
  · intro d hd h
    rcases resp with ⟨c, ci, sc, qc, nq, dl, qr⟩
    simp only at h
    subst h
    rcases qc <;> rcases nq with _ | n <;> simp [applyAnswerResponse, hd]

/-- On a not-yet-complete response carrying a next question, the
response-handling tail stashes that question in the window global. -/
theorem applyAnswerResponse_nextGlobal (st : ClientState) (resp : CAnswerResponse)
    (nq : QuestionPayload) (hqc : resp.quiz_complete = false)
    (hnq : resp.next_question = some nq) :
    (applyAnswerResponse st resp).1.nextQuestionGlobal = some nq := by
  rcases resp with ⟨c, ci, sc, qc, nq2, dl, qr⟩
  simp only at hqc hnq
  subst hqc
  subst hnq
  rcases dl with _ | d <;> simp [applyAnswerResponse]

/-- `handleAnswerSelect` either hits its guard and does nothing, or records
the answer, runs the response tail, and issues the answer request. -/
theorem handleAnswerSelect_cases (st : ClientState) (i : Int) (resp : CAnswerResponse) :
    handleAnswerSelect st i resp = (st, []) ∨
    (∃ q sid, st.question = some q ∧ st.sessionId = some sid ∧
      st.isAnswered = false ∧ sid ≠ "" ∧
      (handleAnswerSelect st i resp).1 =
        (applyAnswerResponse { st with selectedAnswer := some i, isAnswered := true } resp).1 ∧
      (handleAnswerSelect st i resp).2 =
        Request.answerReq sid q.id i st.timeLeft ::
          (applyAnswerResponse { st with selectedAnswer := some i, isAnswered := true } resp).2) := by
  unfold handleAnswerSelect
  rcases hq : st.question with _ | q
  · exact Or.inl rfl
  rcases hs : st.sessionId with _ | sid
  · exact Or.inl rfl
  rcases ha : st.isAnswered with _ | _
  · by_cases hsid : sid = ""
    · subst hsid
      simp
    · right
      refine ⟨q, sid, rfl, rfl, rfl, hsid, ?_, ?_⟩ <;> simp [hsid]
  · simp

/-- `handleTimeout` either hits its guard and does nothing, or flags the
timeout, runs the response tail, and issues the sentinel answer request. -/
theorem handleTimeout_cases (st : ClientState) (resp : CAnswerResponse) :
    handleTimeout st resp = (st, []) ∨
    (∃ q sid, st.question = some q ∧ st.sessionId = some sid ∧
      st.isAnswered = false ∧ sid ≠ "" ∧
      (handleTimeout st resp).1 =
        (applyAnswerResponse
          { st with isAnswered := true, selectedAnswer := none, isTimeout := true } resp).1 ∧
      (handleTimeout st resp).2 =
        Request.answerReq sid q.id (-1) 0 ::
          (applyAnswerResponse
            { st with isAnswered := true, selectedAnswer := none, isTimeout := true } resp).2) := by
  unfold handleTimeout
  rcases hq : st.question with _ | q
  · exact Or.inl rfl
  rcases hs : st.sessionId with _ | sid
  · exact Or.inl rfl
  rcases ha : st.isAnswered with _ | _
  · by_cases hsid : sid = ""
    · subst hsid
      simp
    · right
      refine ⟨q, sid, rfl, rfl, rfl, hsid, ?_, ?_⟩ <;> simp [hsid]
  · simp

/-- An already-answered state absorbs both the click handler and the timer
without emitting a request or changing state. -/
theorem stepEvent_answered (st : ClientState) (e : ClientEvent)
    (h : st.isAnswered = true) : stepEvent st e = (st, []) := by
  cases e with
  | select i r =>
    show handleAnswerSelect st i r = (st, [])
    unfold handleAnswerSelect
    rcases st.question with _ | q
    · rfl
    rcases st.sessionId with _ | sid
    · rfl
    simp [h]
  | timer r =>
    show timerEffect st r = (st, [])
    unfold timerEffect
    rw [h]
    simp only [Bool.not_true, Bool.and_false, Bool.false_and, Bool.and_self]
    rfl

/-- The response-handling tail never issues an answer request. -/
theorem applyAnswerResponse_no_answerReq (st : ClientState) (resp : CAnswerResponse) :
    countAnswerReqs (applyAnswerResponse st resp).2 = 0 := by
  rw [applyAnswerResponse_reqs]
  split
  · exact completeQuiz_no_answerReq st resp.score
  · rfl

/-- Counting answer requests distributes over concatenation. -/
theorem countAnswerReqs_append (l1 l2 : List Request) :
    countAnswerReqs (l1 ++ l2) = countAnswerReqs l1 + countAnswerReqs l2 := by
  unfold countAnswerReqs
  rw [List.filter_append, List.length_append]

/-- An answer request at the head adds one to the count. -/
theorem countAnswerReqs_cons_answer (a b : String) (c : Int) (d : Nat) (l : List Request) :
    countAnswerReqs (Request.answerReq a b c d :: l) = countAnswerReqs l + 1 := by
  unfold countAnswerReqs
  rw [List.filter_cons]
  simp [isAnswerReq]

/-- One click submits at most one answer, and if it submits one the state is
left marked answered. -/
theorem handleAnswerSelect_count (st : ClientState) (i : Int) (r : CAnswerResponse) :
    countAnswerReqs (handleAnswerSelect st i r).2 ≤ 1 ∧
    (0 < countAnswerReqs (handleAnswerSelect st i r).2 →
      (handleAnswerSelect st i r).1.isAnswered = true) := by
  rcases handleAnswerSelect_cases st i r with h | ⟨q, sid, hq, hs, ha, hsid, h1, h2⟩
  · rw [h]
    exact ⟨Nat.zero_le 1, fun habs => absurd habs (by simp [countAnswerReqs])⟩
  · constructor
    · rw [h2, countAnswerReqs_cons_answer, applyAnswerResponse_no_answerReq]
    · intro _
      rw [h1, (applyAnswerResponse_fields _ r).2.1]

/-- One timeout submits at most one answer, and if it submits one the state
is left marked answered. -/
theorem handleTimeout_count (st : ClientState) (r : CAnswerResponse) :
    countAnswerReqs (handleTimeout st r).2 ≤ 1 ∧
    (0 < countAnswerReqs (handleTimeout st r).2 →
      (handleTimeout st r).1.isAnswered = true) := by
  rcases handleTimeout_cases st r with h | ⟨q, sid, hq, hs, ha, hsid, h1, h2⟩
  · rw [h]
    exact ⟨Nat.zero_le 1, fun habs => absurd habs (by simp [countAnswerReqs])⟩
  · constructor
    · rw [h2, countAnswerReqs_cons_answer, applyAnswerResponse_no_answerReq]
    · intro _
      rw [h1, (applyAnswerResponse_fields _ r).2.1]

/-- One event submits at most one answer, and if it submits one the state is
left marked answered. -/
theorem stepEvent_count (st : ClientState) (e : ClientEvent) :
    countAnswerReqs (stepEvent st e).2 ≤ 1 ∧
    (0 < countAnswerReqs (stepEvent st e).2 → (stepEvent st e).1.isAnswered = true) := by
  cases e with
  | select i r => exact handleAnswerSelect_count st i r
  | timer r =>
    show countAnswerReqs (timerEffect st r).2 ≤ 1 ∧
      (0 < countAnswerReqs (timerEffect st r).2 → (timerEffect st r).1.isAnswered = true)
    unfold timerEffect
    split
    · exact ⟨Nat.zero_le 1, fun habs => absurd habs (by simp [countAnswerReqs])⟩
    · split
      · exact handleTimeout_count st r
      · exact ⟨Nat.zero_le 1, fun habs => absurd habs (by simp [countAnswerReqs])⟩

/-- Events hitting an already-answered state do nothing at all. -/
theorem runEvents_answered (evs : List ClientEvent) :
    ∀ st : ClientState, st.isAnswered = true → runEvents st evs = (st, []) := by
  induction evs with
  | nil => intro st _; rfl
  | cons e rest ih =>
    intro st h
    unfold runEvents
    rw [stepEvent_answered st e h]
    simp only
    rw [ih st h]
    rfl

/-- Any event sequence starting from an unanswered question submits at most
one answer. -/
theorem runEvents_count_le_one (evs : List ClientEvent) :
    ∀ st : ClientState, countAnswerReqs (runEvents st evs).2 ≤ 1 := by
  induction evs with
  | nil => intro st; exact Nat.zero_le 1
  | cons e rest ih =>
    intro st
    unfold runEvents
    simp only
    rw [countAnswerReqs_append]
    by_cases h : 0 < countAnswerReqs (stepEvent st e).2
    · have h1 := (stepEvent_count st e).2 h
      rw [runEvents_answered rest _ h1]
      have h2 := (stepEvent_count st e).1
      have h3 : countAnswerReqs ((stepEvent st e).1, ([] : List Request)).2 = 0 := rfl
      omega
    · have h0 : countAnswerReqs (stepEvent st e).2 = 0 := by omega
      rw [h0]
      simpa using ih (stepEvent st e).1

/-- Every complete request `completeQuiz` issues carries the hardcoded
aggregates. -/
theorem completeQuiz_constants (st : ClientState) (fs : Nat) :
    ∀ r2 ∈ completeQuiz st fs, completeReqConstants r2 = true := by
  intro r2 hr2
  unfold completeQuiz at hr2
  split at hr2
  · exact absurd hr2 (List.not_mem_nil r2)
  · split at hr2
    · exact absurd hr2 (List.not_mem_nil r2)
    · rw [List.mem_singleton.mp hr2]
      rfl

/-- Every request the response-handling tail issues carries the hardcoded
aggregates. -/
theorem applyAnswerResponse_constants (st : ClientState) (resp : CAnswerResponse) :
    ∀ r2 ∈ (applyAnswerResponse st resp).2, completeReqConstants r2 = true := by
  rw [applyAnswerResponse_reqs]
  split
  · exact completeQuiz_constants st resp.score
  · intro r2 hr2
    exact absurd hr2 (by simp)

/-- Every complete request issued by an event carries the hardcoded
aggregates. -/
theorem stepEvent_constants (st : ClientState) (e : ClientEvent) :
    ∀ r2 ∈ (stepEvent st e).2, completeReqConstants r2 = true := by
  cases e with
  | select i r =>
    intro r2 hr2
    have hr2b : r2 ∈ (handleAnswerSelect st i r).2 := hr2
    rcases handleAnswerSelect_cases st i r with h | ⟨q, sid, hq, hs, ha, hsid, h1, h2⟩
    · rw [h] at hr2b
      exact absurd hr2b (by simp)
    · rw [h2] at hr2b
      rcases List.mem_cons.mp hr2b with h3 | h3
      · rw [h3]; rfl
      · exact applyAnswerResponse_constants _ r r2 h3
  | timer r =>
    intro r2 hr2
    show completeReqConstants r2 = true
    have : r2 ∈ (timerEffect st r).2 := hr2
    unfold timerEffect at this
    split at this
    · exact absurd this (by simp)
    · split at this
      · rcases handleTimeout_cases st r with h | ⟨q, sid, hq, hs, ha, hsid, h1, h2⟩
        · rw [h] at this
          exact absurd this (by simp)
        · rw [h2] at this
          rcases List.mem_cons.mp this with h3 | h3
          · rw [h3]; rfl
          · exact applyAnswerResponse_constants _ r r2 h3
      · exact absurd this (by simp)

/-- Every complete request issued across any event sequence carries the
hardcoded aggregates. -/
theorem runEvents_constants (evs : List ClientEvent) :
    ∀ (st : ClientState) (r2 : Request),
      r2 ∈ (runEvents st evs).2 → completeReqConstants r2 = true := by
  induction evs with
  | nil =>
    intro st r2 h
    exact absurd h (by simp [runEvents])
  | cons e rest ih =>
    intro st r2 h
    unfold runEvents at h
    simp only at h
    rcases List.mem_append.mp h with h2 | h2
    · exact stepEvent_constants st e r2 h2
    · exact ih (stepEvent st e).1 r2 h2

/-- With a question on screen, a truthy session id and nothing answered yet,
a click submits the chosen index with the remaining time, runs the response
tail, and POSTs completion exactly when the response says the quiz is done. -/
theorem handleAnswerSelect_submit (st : ClientState) (i : Int)
    (resp : CAnswerResponse) (q : QuestionPayload) (sid : String)
    (hq : st.question = some q) (hs : st.sessionId = some sid)
    (hsid : sid ≠ "") (ha : st.isAnswered = false) :
    (handleAnswerSelect st i resp).1 =
      (applyAnswerResponse { st with selectedAnswer := some i, isAnswered := true } resp).1 ∧
    (handleAnswerSelect st i resp).2 =
      Request.answerReq sid q.id i st.timeLeft ::
        (if resp.quiz_complete then [Request.completeReq sid resp.score 1 10] else []) := by
  constructor
  · simp [handleAnswerSelect, hq, hs, ha, hsid]
  · have h2 : (handleAnswerSelect st i resp).2 =
        Request.answerReq sid q.id i st.timeLeft ::
          (applyAnswerResponse { st with selectedAnswer := some i, isAnswered := true } resp).2 := by
      simp [handleAnswerSelect, hq, hs, ha, hsid]
    rw [h2, applyAnswerResponse_reqs]
    congr 1
    split
    · exact completeQuiz_eq _ _ sid hs hsid
    · rfl

/-- With a question on screen, a truthy session id and nothing answered yet,
a timeout submits the sentinel with zero time left, runs the response tail,
and POSTs completion exactly when the response says the quiz is done. -/
theorem handleTimeout_submit (st : ClientState) (resp : CAnswerResponse)
    (q : QuestionPayload) (sid : String)
    (hq : st.question = some q) (hs : st.sessionId = some sid)
    (hsid : sid ≠ "") (ha : st.isAnswered = false) :
    (handleTimeout st resp).1 =
      (applyAnswerResponse
        { st with isAnswered := true, selectedAnswer := none, isTimeout := true } resp).1 ∧
    (handleTimeout st resp).2 =
      Request.answerReq sid q.id (-1) 0 ::
        (if resp.quiz_complete then [Request.completeReq sid resp.score 1 10] else []) := by
  constructor
  · simp [handleTimeout, hq, hs, ha, hsid]
  · have h2 : (handleTimeout st resp).2 =
        Request.answerReq sid q.id (-1) 0 ::
          (applyAnswerResponse
            { st with isAnswered := true, selectedAnswer := none, isTimeout := true } resp).2 := by
      simp [handleTimeout, hq, hs, ha, hsid]
    rw [h2, applyAnswerResponse_reqs]
    congr 1
    split
    · exact completeQuiz_eq _ _ sid hs hsid
    · rfl

end Client

/-! ## Claims about the quiz session engine (spec-modelled) -/

/-- C1: for every quiz session, the score is non-decreasing: a successful
`submitAnswer` returns a score at least the score before the call (and equal
to the new session score), and across any sequence of `submitAnswer` calls
the session score never decreases. -/
theorem claim_C1_score_nondecreasing (s : QuizSession) (inp : SubmitInput)
    (r : AnswerResponse) (l : List SubmitInput)
    (h : (submitAnswer s inp).1 = Except.ok r) :
    s.score ≤ r.score ∧ r.score = (submitAnswer s inp).2.score ∧
    s.score ≤ (runSubmits s l).score := by
  refine ⟨?_, ?_, runSubmits_score_le l s⟩
  · rcases hpair : submitAnswer s inp with ⟨res, s1⟩
    rw [hpair] at h
    simp only at h
    subst h
    obtain ⟨q, -, -, -, hr, -⟩ := submitAnswer_ok_elim s inp r s1 hpair
    rw [hr]
    show s.score ≤ scoreAfter s q inp
    unfold scoreAfter
    split
    · exact Nat.le_add_right _ _
    · exact Nat.le_refl _
  · rcases hpair : submitAnswer s inp with ⟨res, s1⟩
    rw [hpair] at h
    simp only at h
    subst h
    obtain ⟨q, -, -, -, hr, hs1⟩ := submitAnswer_ok_elim s inp r s1 hpair
    rw [hr, hs1]
    rfl

/-- Witness for C1 at the two-question fixture session. -/
theorem claim_C1_witness :
    sessAB.score ≤ (answerResponseOf sessAB qA inpA).score ∧
    (answerResponseOf sessAB qA inpA).score = (submitAnswer sessAB inpA).2.score ∧
    sessAB.score ≤ (runSubmits sessAB [inpA, inpB]).score :=
  claim_C1_score_nondecreasing sessAB inpA (answerResponseOf sessAB qA inpA)
    [inpA, inpB] rfl

/-- C2: a session started with `total_questions` questions is COMPLETE after
exactly that many successful `submitAnswer` calls, and any further
`submitAnswer` call fails with `SessionNotFound` and leaves the session
unchanged. -/
theorem claim_C2_complete_after_all_questions (sid : String) (uid : Option String)
    (qs : List Question) (resp : StartResponse) (s s2 : QuizSession)
    (inputs : List SubmitInput)
    (hstart : startSession sid uid qs = Except.ok (resp, s))
    (hlen : inputs.length = qs.length)
    (hrun : runSubmitsOk s inputs = some s2) :
    s2.status = SessionStatus.COMPLETE ∧
    ∀ j : SubmitInput, submitAnswer s2 j = (Except.error QuizError.SessionNotFound, s2) := by
  cases qs with
  | nil => exact absurd hstart (by simp [startSession])
  | cons q rest =>
    simp only [startSession] at hstart
    obtain ⟨-, hs⟩ := Prod.mk.injEq .. ▸ (Except.ok.inj hstart)
    have hcomp : s2.status = SessionStatus.COMPLETE := by
      refine runSubmitsOk_complete inputs s s2 ?_ ?_ hrun
      · intro hnil
        rw [hnil] at hlen
        exact absurd hlen.symm (by simp)
      · rw [← hs]
        simpa using hlen
    exact ⟨hcomp, fun j => submitAnswer_complete s2 j hcomp⟩

/-- Witness for C2: the two-question fixture session is COMPLETE after its
two answers and then rejects every further submission. -/
theorem claim_C2_witness :
    sessDone.status = SessionStatus.COMPLETE ∧
    ∀ j : SubmitInput,
      submitAnswer sessDone j = (Except.error QuizError.SessionNotFound, sessDone) :=
  claim_C2_complete_after_all_questions "s" none [qA, qB] startRespAB sessAB sessDone
    [inpA, inpB] rfl rfl (by decide)

/-- C3: a successful `submitAnswer` on the current question grades correct
iff `answer_index` equals the question's `correct_index`; the timeout
sentinel is always graded incorrect with the score unchanged; a correct
answer adds `points difficulty time_left`, which is strictly positive when
the difficulty is in range and monotonic in both remaining time and
difficulty. -/
theorem claim_C3_grading (s : QuizSession) (inp : SubmitInput) (q : Question)
    (r : AnswerResponse) (s2 : QuizSession)
    (hq : s.questions[s.current_index]? = some q)
    (h : submitAnswer s inp = (Except.ok r, s2)) :
    (r.correct = true ↔ inp.answer_index = (q.correct_index : Int)) ∧
    (inp.answer_index = TIMEOUT_SENTINEL → r.correct = false ∧ r.score = s.score) ∧
    (r.correct = true →
      r.score = s.score + points s.difficulty_level inp.time_left ∧
      (DIFF_MIN ≤ s.difficulty_level → 0 < points s.difficulty_level inp.time_left)) ∧
    (∀ d d2 t t2 : Nat, d ≤ d2 → t ≤ t2 → points d t ≤ points d2 t2) := by
  obtain ⟨q2, hq2, -, -, hr, -⟩ := submitAnswer_ok_elim s inp r s2 h
  rw [show q2 = q from Option.some.inj (hq2.symm.trans hq)] at hr
  have hcorrect : r.correct = gradeCorrect q inp := by rw [hr]; rfl
  have hscore : r.score = scoreAfter s q inp := by rw [hr]; rfl
  refine ⟨?_, ?_, ?_, ?_⟩
  · rw [hcorrect]
    unfold gradeCorrect
    exact beq_iff_eq
  · intro hto
    have hne : gradeCorrect q inp = false := by
      unfold gradeCorrect
      rw [hto]
      unfold TIMEOUT_SENTINEL
      simp only [beq_eq_false_iff_ne, ne_eq]
      intro habs
      omega
    constructor
    · rw [hcorrect, hne]
    · rw [hscore]
      unfold scoreAfter
      rw [hne]
      simp
  · intro hc
    rw [hcorrect] at hc
    constructor
    · rw [hscore]
      unfold scoreAfter
      rw [hc]
      simp
    · intro hd
      unfold points BASE_POINTS
      unfold DIFF_MIN at hd
      omega
  · intro d d2 t t2 hdd htt
    unfold points BASE_POINTS
    omega

/-- Witness for C3 at the fixture: a correct answer on the current question
of the fresh two-question session. -/
theorem claim_C3_witness :
    ((answerResponseOf sessAB qA inpA).correct = true ↔
      inpA.answer_index = (qA.correct_index : Int)) ∧
    (inpA.answer_index = TIMEOUT_SENTINEL →
      (answerResponseOf sessAB qA inpA).correct = false ∧
      (answerResponseOf sessAB qA inpA).score = sessAB.score) ∧
    ((answerResponseOf sessAB qA inpA).correct = true →
      (answerResponseOf sessAB qA inpA).score =
        sessAB.score + points sessAB.difficulty_level inpA.time_left ∧
      (DIFF_MIN ≤ sessAB.difficulty_level →
        0 < points sessAB.difficulty_level inpA.time_left)) ∧
    (∀ d d2 t t2 : Nat, d ≤ d2 → t ≤ t2 → points d t ≤ points d2 t2) :=
  claim_C3_grading sessAB inpA qA (answerResponseOf sessAB qA inpA)
    (advanceSession sessAB qA inpA) rfl rfl

/-! ## Claims about the client (embedded from QuizPage) -/

namespace Client

/-- C4: the client runs a 30-second countdown per question — the timer is
initialized to 30, restored to 30 by quiz start and by showing the next
question, decremented while running, and on reaching 0 with no answer it
calls the answer endpoint for the current question with `answer_index = -1`
and `time_left = 0`. -/
theorem claim_C4_countdown_timeout (st : ClientState) (ud : Option UserData)
    (sresp : CStartResponse) (resp : CAnswerResponse)
    (q nq : QuestionPayload) (sid : String) :
    initClientState.timeLeft = 30 ∧
    (startQuiz st ud sresp).1.timeLeft = 30 ∧
    (st.nextQuestionGlobal = some nq → (nextQuestion st).timeLeft = 30) ∧
    (0 < st.timeLeft → st.isAnswered = false → st.quizComplete = false →
      timerEffect st resp = ({ st with timeLeft := st.timeLeft - 1 }, [])) ∧
    (st.timeLeft = 0 → st.isAnswered = false → st.question = some q →
      st.sessionId = some sid → sid ≠ "" →
      (timerEffect st resp).2 =
        Request.answerReq sid q.id (-1) 0 ::
          (if resp.quiz_complete then [Request.completeReq sid resp.score 1 10] else [])) := by
  refine ⟨rfl, rfl, ?_, ?_, ?_⟩
  · intro h
    simp [nextQuestion, h]
  · intro h1 h2 h3
    unfold timerEffect
    rw [h2, h3]
    simp [h1]
  · intro h0 ha hq hs hsid
    have heff : (timerEffect st resp).2 = (handleTimeout st resp).2 := by
      unfold timerEffect
      rw [h0, ha, hq]
      simp
    rw [heff]
    exact (handleTimeout_submit st resp q sid hq hs hsid ha).2

/-- Witness for C4: the fixture state ticks from 30 to 29, and at 0 the
timeout submission carries the sentinel and zero time. -/
theorem claim_C4_witness :
    timerEffect stClient respNextC = ({ stClient with timeLeft := 29 }, []) ∧
    (timerEffect { stClient with timeLeft := 0 } respDoneC).2 =
      Request.answerReq "s" "qA" (-1) 0 :: [Request.completeReq "s" 30 1 10] := by
  constructor
  · exact (claim_C4_countdown_timeout stClient none respStartC respNextC qpA qpA "s").2.2.2.1
      (by decide) rfl rfl
  · exact (claim_C4_countdown_timeout { stClient with timeLeft := 0 } none respStartC
      respDoneC qpA qpA "s").2.2.2.2 rfl rfl rfl rfl (by decide)

/-- C5: per displayed question the client submits at most one answer — any
event sequence from one state submits at most once, an already-answered
state absorbs every event without a request, and showing the next question
is what resets the answered flag. -/
theorem claim_C5_at_most_one_submission (st : ClientState)
    (evs : List ClientEvent) (nq : QuestionPayload) :
    countAnswerReqs (runEvents st evs).2 ≤ 1 ∧
    (st.isAnswered = true → runEvents st evs = (st, [])) ∧
    (st.nextQuestionGlobal = some nq → (nextQuestion st).isAnswered = false) := by
  refine ⟨runEvents_count_le_one evs st, runEvents_answered evs st, ?_⟩
  intro h
  simp [nextQuestion, h]

/-- Witness for C5: a click, a second click and a timer tick on the fixture
state produce a single answer request; an answered state absorbs a timer
tick; the next question clears the answered flag. -/
theorem claim_C5_witness :
    countAnswerReqs (runEvents stClient
      [ClientEvent.select 1 respNextC, ClientEvent.select 0 respNextC,
       ClientEvent.timer respDoneC]).2 ≤ 1 ∧
    runEvents { stClient with isAnswered := true } [ClientEvent.timer respDoneC] =
      ({ stClient with isAnswered := true }, []) ∧
    (nextQuestion { stClient with nextQuestionGlobal := some qpB }).isAnswered = false := by
  refine ⟨?_, ?_, ?_⟩
  · exact (claim_C5_at_most_one_submission stClient
      [ClientEvent.select 1 respNextC, ClientEvent.select 0 respNextC,
       ClientEvent.timer respDoneC] qpB).1
  · exact (claim_C5_at_most_one_submission { stClient with isAnswered := true }
      [ClientEvent.timer respDoneC] qpB).2.1 rfl
  · exact (claim_C5_at_most_one_submission { stClient with nextQuestionGlobal := some qpB }
      [] qpB).2.2 rfl

/-- C6 counterexample: at a concrete state and response, the click handler
stores the response's `next_question` and `correct_index` in the window-held
mutable globals (they were unset before the call), so the client does keep
answer-response data outside the current question's render scope. -/
theorem claim_C6_counterexample :
    stClient.nextQuestionGlobal = none ∧
    stClient.lastCorrectIndexGlobal = none ∧
    (handleAnswerSelect stClient 1 respNextC).1.nextQuestionGlobal = some qpB ∧
    (handleAnswerSelect stClient 1 respNextC).1.lastCorrectIndexGlobal = some 1 := by
  refine ⟨rfl, rfl, ?_, ?_⟩ <;> decide

/-- C6 (amended): the client stores answer-response data in the window-held
mutable globals — a non-final response's `next_question` lands in
`__nextQuestion`, every response's `correct_index` lands in
`__lastCorrectIndex` (from both handlers), and advancing to the next
question reads the global without clearing it. -/
theorem claim_C6_globals_hold_response (st : ClientState) (i : Int)
    (resp : CAnswerResponse) (q nq : QuestionPayload) (sid : String)
    (hq : st.question = some q) (hs : st.sessionId = some sid)
    (hsid : sid ≠ "") (ha : st.isAnswered = false) :
    (resp.quiz_complete = false → resp.next_question = some nq →
      (handleAnswerSelect st i resp).1.nextQuestionGlobal = some nq) ∧
    (handleAnswerSelect st i resp).1.lastCorrectIndexGlobal = some resp.correct_index ∧
    (handleTimeout st resp).1.lastCorrectIndexGlobal = some resp.correct_index ∧
    (nextQuestion st).nextQuestionGlobal = st.nextQuestionGlobal := by
  refine ⟨?_, ?_, ?_, ?_⟩
  · intro hqc hnq
    rw [(handleAnswerSelect_submit st i resp q sid hq hs hsid ha).1]
    exact applyAnswerResponse_nextGlobal _ resp nq hqc hnq
  · rw [(handleAnswerSelect_submit st i resp q sid hq hs hsid ha).1]
    exact (applyAnswerResponse_fields _ resp).2.2.2.2
  · rw [(handleTimeout_submit st resp q sid hq hs hsid ha).1]
    exact (applyAnswerResponse_fields _ resp).2.2.2.2
  · unfold nextQuestion
    split
    · rfl
    · rfl

/-- Witness for the amended C6 at the fixture state and mid-quiz response. -/
theorem claim_C6_witness :
    (handleAnswerSelect stClient 1 respNextC).1.nextQuestionGlobal = some qpB ∧
    (handleAnswerSelect stClient 1 respNextC).1.lastCorrectIndexGlobal =
      some respNextC.correct_index ∧
    (handleTimeout stClient respNextC).1.lastCorrectIndexGlobal =
      some respNextC.correct_index ∧
    (nextQuestion stClient).nextQuestionGlobal = stClient.nextQuestionGlobal := by
  have h := claim_C6_globals_hold_response stClient 1 respNextC qpA qpB "s"
    rfl rfl (by decide) rfl
  exact ⟨h.1 rfl rfl, h.2.1, h.2.2.1, h.2.2.2⟩

/-- C7: when an answer response carries `quiz_complete = true`, the client
issues exactly one POST to /api/quiz/complete, with `final_score` equal to
that response's score — and no complete POST otherwise. -/
theorem claim_C7_complete_post (st : ClientState) (i : Int)
    (resp : CAnswerResponse) (q : QuestionPayload) (sid : String)
    (hq : st.question = some q) (hs : st.sessionId = some sid)
    (hsid : sid ≠ "") (ha : st.isAnswered = false) :
    (resp.quiz_complete = true →
      (handleAnswerSelect st i resp).2 =
        [Request.answerReq sid q.id i st.timeLeft,
         Request.completeReq sid resp.score 1 10] ∧
      (handleTimeout st resp).2 =
        [Request.answerReq sid q.id (-1) 0,
         Request.completeReq sid resp.score 1 10]) ∧
    (resp.quiz_complete = false →
      (handleAnswerSelect st i resp).2 = [Request.answerReq sid q.id i st.timeLeft] ∧
      (handleTimeout st resp).2 = [Request.answerReq sid q.id (-1) 0]) := by
  constructor
  · intro hqc
    constructor
    · rw [(handleAnswerSelect_submit st i resp q sid hq hs hsid ha).2, hqc]
      rfl
    · rw [(handleTimeout_submit st resp q sid hq hs hsid ha).2, hqc]
      rfl
  · intro hqc
    constructor
    · rw [(handleAnswerSelect_submit st i resp q sid hq hs hsid ha).2, hqc]
      rfl
    · rw [(handleTimeout_submit st resp q sid hq hs hsid ha).2, hqc]
      rfl

/-- Witness for C7 at the fixture state: the final response triggers the one
complete POST with its score; the mid-quiz response triggers none. -/
theorem claim_C7_witness :
    (handleAnswerSelect stClient 1 respDoneC).2 =
      [Request.answerReq "s" "qA" 1 30, Request.completeReq "s" 30 1 10] ∧
    (handleAnswerSelect stClient 1 respNextC).2 = [Request.answerReq "s" "qA" 1 30] := by
  constructor
  · exact ((claim_C7_complete_post stClient 1 respDoneC qpA "s" rfl rfl (by decide) rfl).1
      rfl).1
  · exact ((claim_C7_complete_post stClient 1 respNextC qpA "s" rfl rfl (by decide) rfl).2
      rfl).1

/-- C8: quiz start POSTs /api/quiz/start with `total_questions = 10`,
includes `user_id` exactly when a user with a truthy id is present, and
initializes the view from the response: its question and score, a fresh
30-second timer, nothing selected, nothing answered. -/
theorem claim_C8_start_request (st : ClientState) (u : UserData)
    (ud : Option UserData) (resp : CStartResponse) :
    ((startQuiz st (some u) resp).2 = [Request.startReq 10 (some u.user_id)] ↔
      u.user_id ≠ "") ∧
    (startQuiz st none resp).2 = [Request.startReq 10 none] ∧
    (startQuiz st ud resp).1.sessionId = some resp.session_id ∧
    (startQuiz st ud resp).1.question = some resp.question ∧
    (startQuiz st ud resp).1.score = resp.score ∧
    (startQuiz st ud resp).1.timeLeft = 30 ∧
    (startQuiz st ud resp).1.isAnswered = false ∧
    (startQuiz st ud resp).1.selectedAnswer = none := by
  refine ⟨?_, rfl, rfl, rfl, rfl, rfl, rfl, rfl⟩
  by_cases h : u.user_id = "" <;> simp [startQuiz, h]

/-- Witness for C8 at the fixture user and start response. -/
theorem claim_C8_witness :
    ((startQuiz Client.initClientState (some userC) respStartC).2 =
      [Request.startReq 10 (some userC.user_id)] ↔ userC.user_id ≠ "") ∧
    (startQuiz Client.initClientState none respStartC).2 = [Request.startReq 10 none] ∧
    (startQuiz Client.initClientState (some userC) respStartC).1.timeLeft = 30 :=
  ⟨(claim_C8_start_request Client.initClientState userC (some userC) respStartC).1,
   (claim_C8_start_request Client.initClientState userC (some userC) respStartC).2.1,
   (claim_C8_start_request Client.initClientState userC (some userC) respStartC).2.2.2.2.2.1⟩

/-- C9: every POST to /api/quiz/complete the client issues carries the
hardcoded `correct_answers = 1` and `total_questions = 10`, whatever
actually happened in the quiz. -/
theorem claim_C9_complete_hardcoded (st : ClientState) (evs : List ClientEvent)
    (sid : String) (fs ca tq : Nat)
    (h : Request.completeReq sid fs ca tq ∈ (runEvents st evs).2) :
    ca = 1 ∧ tq = 10 := by
  have hc := runEvents_constants evs st (Request.completeReq sid fs ca tq) h
  unfold completeReqConstants at hc
  simp only [Bool.and_eq_true, beq_iff_eq] at hc
  exact hc

/-- Witness for C9: the complete POST of the fixture run carries 1 and 10. -/
theorem claim_C9_witness : (1 : Nat) = 1 ∧ (10 : Nat) = 10 :=
  claim_C9_complete_hardcoded stClient [ClientEvent.select 1 respDoneC] "s" 30 1 10
    (by decide)

/-- C10: the displayed difficulty starts at 1 and is updated from an answer
response only when its `difficulty_level` is truthy; a response with
`difficulty_level` 0 or absent leaves the displayed level unchanged. -/
theorem claim_C10_difficulty_truthy (st : ClientState) (i : Int)
    (resp : CAnswerResponse) (q : QuestionPayload) (sid : String) (d : Nat) :
    initClientState.difficultyLevel = 1 ∧
    (resp.difficulty_level = none →
      (handleAnswerSelect st i resp).1.difficultyLevel = st.difficultyLevel ∧
      (handleTimeout st resp).1.difficultyLevel = st.difficultyLevel) ∧
    (resp.difficulty_level = some 0 →
      (handleAnswerSelect st i resp).1.difficultyLevel = st.difficultyLevel ∧
      (handleTimeout st resp).1.difficultyLevel = st.difficultyLevel) ∧
    (resp.difficulty_level = some d → d ≠ 0 →
      st.question = some q → st.sessionId = some sid → sid ≠ "" →
      st.isAnswered = false →
      (handleAnswerSelect st i resp).1.difficultyLevel = d ∧
      (handleTimeout st resp).1.difficultyLevel = d) := by
  refine ⟨rfl, ?_, ?_, ?_⟩
  · intro hdl
    constructor
    · rcases handleAnswerSelect_cases st i resp with h | ⟨q2, sid2, _, _, _, _, h1, _⟩
      · rw [congrArg Prod.fst h]
      · rw [h1]
        exact (applyAnswerResponse_difficulty _ resp).1 hdl
    · rcases handleTimeout_cases st resp with h | ⟨q2, sid2, _, _, _, _, h1, _⟩
      · rw [congrArg Prod.fst h]
      · rw [h1]
        exact (applyAnswerResponse_difficulty _ resp).1 hdl
  · intro hdl
    constructor
    · rcases handleAnswerSelect_cases st i resp with h | ⟨q2, sid2, _, _, _, _, h1, _⟩
      · rw [congrArg Prod.fst h]
      · rw [h1]
        exact (applyAnswerResponse_difficulty _ resp).2.1 hdl
    · rcases handleTimeout_cases st resp with h | ⟨q2, sid2, _, _, _, _, h1, _⟩
      · rw [congrArg Prod.fst h]
      · rw [h1]
        exact (applyAnswerResponse_difficulty _ resp).2.1 hdl
  · intro hdl hd hq hs hsid ha
    constructor
    · rw [(handleAnswerSelect_submit st i resp q sid hq hs hsid ha).1]
      exact (applyAnswerResponse_difficulty _ resp).2.2 d hd hdl
    · rw [(handleTimeout_submit st resp q sid hq hs hsid ha).1]
      exact (applyAnswerResponse_difficulty _ resp).2.2 d hd hdl

/-- Witness for C10: the mid-quiz response (difficulty 2) updates the level,
the final response (difficulty absent) leaves it unchanged. -/
theorem claim_C10_witness :
    (handleAnswerSelect stClient 1 respNextC).1.difficultyLevel = 2 ∧
    (handleAnswerSelect stClient 1 respDoneC).1.difficultyLevel =
      stClient.difficultyLevel := by
  constructor
  · exact ((claim_C10_difficulty_truthy stClient 1 respNextC qpA "s" 2).2.2.2 rfl
      (by decide) rfl rfl (by decide) rfl).1
  · exact ((claim_C10_difficulty_truthy stClient 1 respDoneC qpA "s" 0).2.1 rfl).1

end Client

end MovieQuiz
